import Mathlib

/-!
# FarmSense edge virtual-grid processor: a shallow embedding

This file embeds the Go edge processor of the FarmSense repository
(`interpolatePoint`, `calculateWaterDeficit`, `calculateStressIndex`,
`classifyIrrigationNeed`, `calculateConfidence`, `storeVirtualGrid`,
`syncToCloud`) in Lean 4 and proves properties of the embedding.

Modelling conventions:
* Go `float64` values are modelled as `ℚ`; `float64` arithmetic is modelled
  exactly (no rounding), the usual idealisation for this kind of code.
* `geo.Distance` (great-circle distance) is an external library function; it
  is abstracted as an explicit distance-function parameter `gd`.
* `math.Pow distance ep.config.IDWPower` is modelled as `d ^ idwPower` with
  `idwPower : ℕ` (the deployed configuration uses `IDWPower = 2.0`, an exact
  natural exponent).
* Go composite literals leave unmentioned struct fields at their zero value;
  the corresponding Lean structure fields carry the zero value as a default,
  so a literal that omits them behaves exactly like the Go one.
* `ep.cloudDB` (a `*sql.DB` that may be `nil`) is modelled by a Boolean
  `cloudDBOpen`; calling a method through a nil handle is a panic, modelled
  as `none` in an `Option`-valued step function.
* The two stores (`storeLocal` to SQLite, `storeCloud` to PostgreSQL) have
  their implementations omitted in the source ("Implementation omitted for
  brevity"); they are modelled as append-only lists of grid points, with the
  success of a cloud write chosen by the environment, which is how every
  caller in the source treats them (an opaque call that either returns `nil`
  or an error).
-/

/-- Sensor reading from the database (Go struct `SensorReading`).
The `time.Time` timestamp is modelled as a tick count. -/
structure SensorReading where
  sensorID : String
  timestamp : ℕ
  latitude : ℚ
  longitude : ℚ
  moistureSurface : ℚ
  moistureRoot : ℚ
  tempSurface : ℚ
  batteryVoltage : ℚ
  qualityFlag : String
  deriving Repr, DecidableEq

/-- A planar point, mirroring `orb.Point` (longitude first, latitude second). -/
structure Point where
  lon : ℚ
  lat : ℚ
  deriving Repr, DecidableEq

/-- Virtual grid point (Go struct `VirtualGridPoint`).  Fields that a Go
composite literal may leave unset default to the Go zero value (`0` for
`float64`, `""` for `string`), so that the coincidence branch of
`interpolatePoint`, which omits `WaterDeficit`, `StressIndex`,
`IrrigationNeed` and `ComputationMode`, is modelled faithfully. -/
structure VirtualGridPoint where
  gridID : String
  fieldID : String
  timestamp : ℕ
  latitude : ℚ
  longitude : ℚ
  moistureSurface : ℚ
  moistureRoot : ℚ
  temperature : ℚ
  waterDeficit : ℚ := 0
  stressIndex : ℚ := 0
  irrigationNeed : String := ""
  sourceSensors : List String
  confidence : ℚ
  computationMode : String := ""
  edgeDeviceID : String
  deriving Repr, DecidableEq

/-- Configuration (Go struct `EdgeConfig`).  `IDWPower` is a `float64` in the
source with deployed value `2.0`; it is modelled as a natural exponent so that
`math.Pow distance power` is exact exponentiation. -/
structure EdgeConfig where
  fieldID : String
  gridResolution : ℚ
  idwPower : ℕ
  searchRadius : ℚ
  minSensors : ℕ
  syncInterval : ℕ
  computeInterval : ℕ
  deriving Repr, DecidableEq

/-- The part of `EdgeProcessor` that `interpolatePoint` and the derived-metric
calculators read: the configuration and the device identifier. -/
structure EdgeProcessor where
  config : EdgeConfig
  deviceID : String
  deriving Repr, DecidableEq

/-- Go source, `calculateWaterDeficit`: field capacity `0.35`; the average of
surface and root moisture below capacity is converted to millimetres over a
600 mm root depth and floored at `0`. -/
def calculateWaterDeficit (_ep : EdgeProcessor) (moistureSurface moistureRoot : ℚ) : ℚ :=
  let fieldCapacity : ℚ := 35/100
  let avgMoisture := (moistureSurface + moistureRoot) / 2
  if avgMoisture ≥ fieldCapacity then 0
  else max ((fieldCapacity - avgMoisture) * 600) 0

/-- Go source, `calculateStressIndex`: moisture stress ramps below `0.20`,
temperature stress ramps above `30`, the mean of the two is capped at `1`. -/
def calculateStressIndex (_ep : EdgeProcessor) (moisture temperature : ℚ) : ℚ :=
  let moistureStress : ℚ := if moisture < 20/100 then (20/100 - moisture) / (20/100) else 0
  let tempStress : ℚ := if temperature > 30 then (temperature - 30) / 15 else 0
  let combinedStress := (moistureStress + tempStress) / 2
  min combinedStress 1

/-- Go source, `classifyIrrigationNeed`: ordered thresholds on
`(waterDeficit, stressIndex)`, first match wins. -/
def classifyIrrigationNeed (_ep : EdgeProcessor) (waterDeficit stressIndex : ℚ) : String :=
  if waterDeficit < 10 ∧ stressIndex < 2/10 then "none"
  else if waterDeficit < 30 ∧ stressIndex < 4/10 then "low"
  else if waterDeficit < 60 ∧ stressIndex < 6/10 then "medium"
  else if waterDeficit < 100 ∧ stressIndex < 8/10 then "high"
  else "critical"

/-- The severity order `none < low < medium < high < critical` on the strings
returned by `classifyIrrigationNeed`, as a numeric rank. -/
def severityRank (c : String) : ℕ :=
  if c = "none" then 0
  else if c = "low" then 1
  else if c = "medium" then 2
  else if c = "high" then 3
  else 4

/-- Go source, helper `calculateVariance`: population variance of a list. -/
def calculateVariance (values : List ℚ) : ℚ :=
  if values.length = 0 then 0
  else
    let mean := values.sum / values.length
    (values.map (fun v => (v - mean) ^ 2)).sum / values.length

/-- Go source, `calculateConfidence`: base confidence from sensor count,
scaled down by the variance of the raw weights. -/
def calculateConfidence (_ep : EdgeProcessor) (sensorCount : ℕ) (weights : List ℚ) : ℚ :=
  let baseConfidence := min ((sensorCount : ℚ) / 10) 1
  if weights.length > 0 then
    let variance := calculateVariance weights
    baseConfidence * (1 / (1 + variance))
  else baseConfidence

/-- Go source, `generateGridID`: field id and the coordinates, joined by
underscores (the `%.5f` float formatting of the original is abstracted to the
literal coordinates; no claim depends on the rendering). -/
def generateGridID (ep : EdgeProcessor) (point : Point) : String :=
  ep.config.fieldID ++ "_" ++ toString point.lat ++ "_" ++ toString point.lon

/-- The `orb.Point` a sensor reading sits at: `orb.Point{sensor.Longitude,
sensor.Latitude}`. -/
def sensorPoint (sensor : SensorReading) : Point :=
  ⟨sensor.longitude, sensor.latitude⟩

/-- The sensor loop of `interpolatePoint`, lines 675–710 of the source.

Each iteration computes `distance := geo.Distance point sensorPoint`,
`continue`s when `distance > SearchRadius`, returns early with the sensor
when `distance < 1.0` (coincidence), and otherwise appends the sensor's
weight and values to the parallel accumulation slices.  Since each slice
entry is a function of that iteration's sensor alone, the loop is captured
by its early-return sensor (`Sum.inl`) or by the ordered list of kept
sensors (`Sum.inr`); weights, values and the running total weight are
recovered pointwise from the kept list. -/
def scanSensors (ep : EdgeProcessor) (gd : Point → Point → ℚ) (point : Point) :
    List SensorReading → SensorReading ⊕ List SensorReading
  | [] => Sum.inr []
  | sensor :: rest =>
    let distance := gd point (sensorPoint sensor)
    if distance > ep.config.searchRadius then scanSensors ep gd point rest
    else if distance < 1 then Sum.inl sensor
    else
      match scanSensors ep gd point rest with
      | Sum.inl s => Sum.inl s
      | Sum.inr kept => Sum.inr (sensor :: kept)

/-- The IDW weight of a kept sensor: `1.0 / math.Pow(distance, IDWPower)`. -/
def idwWeight (ep : EdgeProcessor) (gd : Point → Point → ℚ) (point : Point)
    (sensor : SensorReading) : ℚ :=
  1 / (gd point (sensorPoint sensor)) ^ ep.config.idwPower

/-- Go source, `interpolatePoint` (IDW interpolation), with the great-circle
distance `geo.Distance` abstracted as the parameter `gd` and `time.Now()`
abstracted as the tick `now`.  Returns `none` where the Go function returns
`nil`.  In the coincidence branch the Go composite literal leaves
`WaterDeficit`, `StressIndex`, `IrrigationNeed` and `ComputationMode` at
their zero values; the Lean structure defaults reproduce that. -/
def interpolatePoint (ep : EdgeProcessor) (gd : Point → Point → ℚ) (now : ℕ)
    (point : Point) (sensors : List SensorReading) : Option VirtualGridPoint :=
  match scanSensors ep gd point sensors with
  | Sum.inl sensor =>
    some { gridID := generateGridID ep point
           fieldID := ep.config.fieldID
           timestamp := now
           latitude := point.lat
           longitude := point.lon
           moistureSurface := sensor.moistureSurface
           moistureRoot := sensor.moistureRoot
           temperature := sensor.tempSurface
           sourceSensors := [sensor.sensorID]
           confidence := 1
           edgeDeviceID := ep.deviceID }
  | Sum.inr kept =>
    if kept.length < ep.config.minSensors then none
    else
      let weights := kept.map (idwWeight ep gd point)
      let totalWeight := weights.sum
      let moistureSurface :=
        (kept.map (fun s => s.moistureSurface * (idwWeight ep gd point s / totalWeight))).sum
      let moistureRoot :=
        (kept.map (fun s => s.moistureRoot * (idwWeight ep gd point s / totalWeight))).sum
      let temperature :=
        (kept.map (fun s => s.tempSurface * (idwWeight ep gd point s / totalWeight))).sum
      let confidence := calculateConfidence ep kept.length weights
      let waterDeficit := calculateWaterDeficit ep moistureSurface moistureRoot
      let stressIndex := calculateStressIndex ep moistureSurface temperature
      let irrigationNeed := classifyIrrigationNeed ep waterDeficit stressIndex
      some { gridID := generateGridID ep point
             fieldID := ep.config.fieldID
             timestamp := now
             latitude := point.lat
             longitude := point.lon
             moistureSurface := moistureSurface
             moistureRoot := moistureRoot
             temperature := temperature
             waterDeficit := waterDeficit
             stressIndex := stressIndex
             irrigationNeed := irrigationNeed
             sourceSensors := kept.map SensorReading.sensorID
             confidence := confidence
             computationMode := "edge_20m"
             edgeDeviceID := ep.deviceID }

/-- The mutable device state touched by `storeVirtualGrid` and `syncToCloud`,
together with the contents of the two stores.  `cloudDBOpen` models whether
`ep.cloudDB` is a non-nil handle; `localStore` and `cloudStore` record every
grid point ever written to the local cache resp. the cloud database. -/
structure SyncState where
  isOnline : Bool
  cloudDBOpen : Bool
  pendingSync : List VirtualGridPoint
  localStore : List VirtualGridPoint
  cloudStore : List VirtualGridPoint
  deriving Repr, DecidableEq

/-- Go source, `storeLocal`: write the points to the local SQLite cache. -/
def storeLocal (points : List VirtualGridPoint) (s : SyncState) : SyncState :=
  { s with localStore := s.localStore ++ points }

/-- Go source, `storeCloud` on the success path: batch insert to PostgreSQL.
Whether a given call succeeds is chosen by the environment (the `cloudOk`
parameter of the callers); a failed call leaves the cloud store unchanged. -/
def storeCloud (points : List VirtualGridPoint) (s : SyncState) : SyncState :=
  { s with cloudStore := s.cloudStore ++ points }

/-- Go source, `storeVirtualGrid`: always store locally first; then, if the
device is online and the cloud handle is open, attempt the cloud write and
queue the points for sync when it fails; otherwise queue directly.
`cloudOk` is the environment's choice of whether `storeCloud` succeeds. -/
def storeVirtualGrid (cloudOk : Bool) (points : List VirtualGridPoint)
    (s : SyncState) : SyncState :=
  let s := storeLocal points s
  if s.isOnline ∧ s.cloudDBOpen then
    if cloudOk then storeCloud points s
    else { s with pendingSync := s.pendingSync ++ points }
  else { s with pendingSync := s.pendingSync ++ points }

/-- The second half of `syncToCloud` (lines 960–967): if the pending queue is
non-empty, attempt one bulk `storeCloud` of the whole queue and clear it only
when that write succeeds. -/
def flushPending (writeOk : Bool) (s : SyncState) : SyncState :=
  if s.pendingSync.length > 0 then
    if writeOk then { storeCloud s.pendingSync s with pendingSync := [] }
    else s
  else s

/-- Go source, `syncToCloud`.  When the device is offline or the cloud handle
is nil, the code calls `ep.cloudDB.Ping()`; with a nil handle that is a nil
pointer dereference, modelled as the `none` outcome (the process panics and
no successor state exists).  `pingOk` is the environment's choice of whether
the reachability probe succeeds, `writeOk` whether the bulk write does. -/
def syncToCloud (pingOk writeOk : Bool) (s : SyncState) : Option SyncState :=
  if ¬s.isOnline ∨ ¬s.cloudDBOpen then
    if ¬s.cloudDBOpen then none
    else if pingOk then some (flushPending writeOk { s with isOnline := true })
    else some s
  else some (flushPending writeOk s)

/-- One scheduler-observable transition of the device: a compute cycle's
store phase, or a sync tick that does not panic. -/
inductive SyncStep : SyncState → SyncState → Prop
  | store (cloudOk : Bool) (points : List VirtualGridPoint) (s : SyncState) :
      SyncStep s (storeVirtualGrid cloudOk points s)
  | sync (pingOk writeOk : Bool) (s s' : SyncState)
      (h : syncToCloud pingOk writeOk s = some s') : SyncStep s s'

/-- The state `NewEdgeProcessor` starts from: an empty pending queue, empty
stores, and `isOnline = (cloudDB ≠ nil)`. -/
def initState (dbOpen : Bool) : SyncState :=
  { isOnline := dbOpen, cloudDBOpen := dbOpen,
    pendingSync := [], localStore := [], cloudStore := [] }

/-- States reachable from a fresh processor by store and sync steps. -/
inductive Reachable : SyncState → Prop
  | init (dbOpen : Bool) : Reachable (initState dbOpen)
  | step {s s' : SyncState} : Reachable s → SyncStep s s' → Reachable s'

/-- The configuration built in `main`. -/
def defaultConfig : EdgeConfig :=
  { fieldID := "field_001", gridResolution := 20, idwPower := 2,
    searchRadius := 100, minSensors := 3, syncInterval := 300,
    computeInterval := 900 }

/-- The processor of `main`: the deployed configuration and device id. -/
def ep0 : EdgeProcessor :=
  { config := defaultConfig, deviceID := "edge_rpi4_001" }

/-- C7: the water deficit is `0` exactly when the average moisture is at
least `0.35`, equals `(0.35 - avg) * 600` otherwise, and is never negative. -/
theorem waterDeficit_spec (ep : EdgeProcessor) (ms mr : ℚ) :
    (calculateWaterDeficit ep ms mr = 0 ↔ (ms + mr) / 2 ≥ 35/100) ∧
    ((ms + mr) / 2 < 35/100 →
      calculateWaterDeficit ep ms mr = (35/100 - (ms + mr) / 2) * 600) ∧
    0 ≤ calculateWaterDeficit ep ms mr := by
  simp only [calculateWaterDeficit]
  by_cases h : (ms + mr) / 2 ≥ 35/100
  · simp [h]
  · push_neg at h
    have hpos : (0:ℚ) < (35/100 - (ms + mr) / 2) * 600 := by nlinarith
    rw [if_neg (not_le.mpr h)]
    refine ⟨?_, fun _ => max_eq_left hpos.le, le_max_right _ _⟩
    rw [max_eq_left hpos.le]
    constructor
    · intro h0; exact absurd h0 hpos.ne'
    · intro hge; exact absurd hge (not_le.mpr h)

/-- C7 witness: at surface and root moisture `0.10` the average is below
field capacity and the deficit is `(0.35 - 0.10) * 600 = 150` mm. -/
theorem waterDeficit_spec_witness :
    calculateWaterDeficit ep0 (1/10) (1/10) = (35/100 - (1/10 + 1/10) / 2) * 600 :=
  (waterDeficit_spec ep0 (1/10) (1/10)).2.1 (by norm_num)

/-- The numeric rank of the threshold chain of `classifyIrrigationNeed`. -/
def irrigationRank (d s : ℚ) : ℕ :=
  if d < 10 ∧ s < 2/10 then 0
  else if d < 30 ∧ s < 4/10 then 1
  else if d < 60 ∧ s < 6/10 then 2
  else if d < 100 ∧ s < 8/10 then 3
  else 4

lemma severityRank_classify (ep : EdgeProcessor) (d s : ℚ) :
    severityRank (classifyIrrigationNeed ep d s) = irrigationRank d s := by
  unfold classifyIrrigationNeed irrigationRank
  split_ifs <;> rfl

lemma irrigationRank_le_one {d s : ℚ} (h : d < 30 ∧ s < 4/10) :
    irrigationRank d s ≤ 1 := by
  unfold irrigationRank
  split_ifs <;> norm_num

lemma irrigationRank_le_two {d s : ℚ} (h : d < 60 ∧ s < 6/10) :
    irrigationRank d s ≤ 2 := by
  unfold irrigationRank
  split_ifs <;> norm_num

lemma irrigationRank_le_three {d s : ℚ} (h : d < 100 ∧ s < 8/10) :
    irrigationRank d s ≤ 3 := by
  unfold irrigationRank
  split_ifs <;> norm_num

lemma irrigationRank_le_four (d s : ℚ) : irrigationRank d s ≤ 4 := by
  unfold irrigationRank
  split_ifs <;> norm_num

lemma irrigationRank_mono {d s d' s' : ℚ} (hd : d ≤ d') (hs : s ≤ s') :
    irrigationRank d s ≤ irrigationRank d' s' := by
  have key : ∀ D S : ℚ, d' < D ∧ s' < S → d < D ∧ s < S :=
    fun D S h => ⟨lt_of_le_of_lt hd h.1, lt_of_le_of_lt hs h.2⟩
  by_cases h1 : d' < 10 ∧ s' < 2/10
  · have h0 : irrigationRank d s = 0 := by
      unfold irrigationRank; rw [if_pos (key _ _ h1)]
    rw [h0]; exact Nat.zero_le _
  · by_cases h2 : d' < 30 ∧ s' < 4/10
    · have hr : irrigationRank d' s' = 1 := by
        unfold irrigationRank; rw [if_neg h1, if_pos h2]
      rw [hr]; exact irrigationRank_le_one (key _ _ h2)
    · by_cases h3 : d' < 60 ∧ s' < 6/10
      · have hr : irrigationRank d' s' = 2 := by
          unfold irrigationRank; rw [if_neg h1, if_neg h2, if_pos h3]
        rw [hr]; exact irrigationRank_le_two (key _ _ h3)
      · by_cases h4 : d' < 100 ∧ s' < 8/10
        · have hr : irrigationRank d' s' = 3 := by
            unfold irrigationRank; rw [if_neg h1, if_neg h2, if_neg h3, if_pos h4]
          rw [hr]; exact irrigationRank_le_three (key _ _ h4)
        · have hr : irrigationRank d' s' = 4 := by
            unfold irrigationRank; rw [if_neg h1, if_neg h2, if_neg h3, if_neg h4]
          rw [hr]; exact irrigationRank_le_four d s

/-- C8: the irrigation-need classification is monotone in the severity order
`none < low < medium < high < critical`: raising the deficit and the stress
index never lowers the returned class. -/
theorem classifyIrrigationNeed_monotone (ep : EdgeProcessor) (d s d' s' : ℚ)
    (hd : d ≤ d') (hs : s ≤ s') :
    severityRank (classifyIrrigationNeed ep d s) ≤
      severityRank (classifyIrrigationNeed ep d' s') := by
  rw [severityRank_classify, severityRank_classify]
  exact irrigationRank_mono hd hs

/-- C8 witness: `(5, 0.1)` classifies no higher than `(50, 0.5)`. -/
theorem classifyIrrigationNeed_monotone_witness :
    severityRank (classifyIrrigationNeed ep0 5 (1/10)) ≤
      severityRank (classifyIrrigationNeed ep0 50 (1/2)) :=
  classifyIrrigationNeed_monotone ep0 5 (1/10) 50 (1/2) (by norm_num) (by norm_num)

lemma scanSensors_coincidence (ep : EdgeProcessor) (gd : Point → Point → ℚ)
    (point : Point) (sensors : List SensorReading)
    (h : ∃ s ∈ sensors, gd point (sensorPoint s) ≤ ep.config.searchRadius ∧
      gd point (sensorPoint s) < 1) :
    ∃ s ∈ sensors, gd point (sensorPoint s) ≤ ep.config.searchRadius ∧
      gd point (sensorPoint s) < 1 ∧
      scanSensors ep gd point sensors = Sum.inl s := by
  induction sensors with
  | nil => obtain ⟨s, hs, _⟩ := h; exact absurd hs (List.not_mem_nil s)
  | cons a rest ih =>
    by_cases hgt : gd point (sensorPoint a) > ep.config.searchRadius
    · have hrest : ∃ s ∈ rest, gd point (sensorPoint s) ≤ ep.config.searchRadius ∧
          gd point (sensorPoint s) < 1 := by
        obtain ⟨s, hs, hrad, hlt⟩ := h
        rcases List.mem_cons.mp hs with rfl | hmem
        · exact absurd hrad (not_le.mpr hgt)
        · exact ⟨s, hmem, hrad, hlt⟩
      obtain ⟨s, hmem, hrad, hlt, heq⟩ := ih hrest
      refine ⟨s, List.mem_cons_of_mem a hmem, hrad, hlt, ?_⟩
      simp only [scanSensors]
      rw [if_pos hgt]
      exact heq
    · by_cases hlt : gd point (sensorPoint a) < 1
      · refine ⟨a, List.mem_cons_self a rest, not_lt.mp hgt, hlt, ?_⟩
        simp only [scanSensors]
        rw [if_neg hgt, if_pos hlt]
      · have hrest : ∃ s ∈ rest, gd point (sensorPoint s) ≤ ep.config.searchRadius ∧
            gd point (sensorPoint s) < 1 := by
          obtain ⟨s, hs, hrad, hlt'⟩ := h
          rcases List.mem_cons.mp hs with rfl | hmem
          · exact absurd hlt' hlt
          · exact ⟨s, hmem, hrad, hlt'⟩
        obtain ⟨s, hmem, hrad, hlt', heq⟩ := ih hrest
        refine ⟨s, List.mem_cons_of_mem a hmem, hrad, hlt', ?_⟩
        simp only [scanSensors]
        rw [if_neg hgt, if_neg hlt, heq]

lemma scanSensors_no_coincidence (ep : EdgeProcessor) (gd : Point → Point → ℚ)
    (point : Point) (sensors : List SensorReading)
    (h : ∀ s ∈ sensors, gd point (sensorPoint s) ≤ ep.config.searchRadius →
      1 ≤ gd point (sensorPoint s)) :
    scanSensors ep gd point sensors =
      Sum.inr (sensors.filter
        (fun s => decide (gd point (sensorPoint s) ≤ ep.config.searchRadius))) := by
  induction sensors with
  | nil => rfl
  | cons a rest ih =>
    have hrest := fun s hs => h s (List.mem_cons_of_mem a hs)
    by_cases hgt : gd point (sensorPoint a) > ep.config.searchRadius
    · simp only [scanSensors]
      rw [if_pos hgt, ih hrest]
      rw [List.filter_cons_of_neg (by simpa using hgt)]
    · have hge : 1 ≤ gd point (sensorPoint a) :=
        h a (List.mem_cons_self a rest) (not_lt.mp hgt)
      simp only [scanSensors]
      rw [if_neg hgt, if_neg (not_lt.mpr hge), ih hrest]
      rw [List.filter_cons_of_pos (by simpa using not_lt.mp hgt)]

lemma interpolatePoint_inr_fields (ep : EdgeProcessor) (gd : Point → Point → ℚ)
    (now : ℕ) (point : Point) (sensors kept : List SensorReading)
    (gp : VirtualGridPoint)
    (hscan : scanSensors ep gd point sensors = Sum.inr kept)
    (hgp : interpolatePoint ep gd now point sensors = some gp) :
    gp.waterDeficit = calculateWaterDeficit ep gp.moistureSurface gp.moistureRoot ∧
    gp.stressIndex = calculateStressIndex ep gp.moistureSurface gp.temperature ∧
    gp.irrigationNeed = classifyIrrigationNeed ep gp.waterDeficit gp.stressIndex ∧
    gp.computationMode = "edge_20m" := by
  unfold interpolatePoint at hgp
  rw [hscan] at hgp
  dsimp only at hgp
  by_cases hlen : kept.length < ep.config.minSensors
  · rw [if_pos hlen] at hgp
    exact Option.noConfusion hgp
  · rw [if_neg hlen] at hgp
    obtain rfl := Option.some.inj hgp
    exact ⟨rfl, rfl, rfl, rfl⟩

/-- C6: when some reading inside the search radius lies within one
distance-unit of the grid coordinate, interpolation short-circuits on such a
reading: the returned GridPoint copies its surface moisture, root moisture
and temperature exactly, has confidence `1`, and lists that reading's sensor
as the single source. -/
theorem interpolate_coincidence (ep : EdgeProcessor) (gd : Point → Point → ℚ)
    (now : ℕ) (point : Point) (sensors : List SensorReading)
    (h : ∃ s ∈ sensors, gd point (sensorPoint s) ≤ ep.config.searchRadius ∧
      gd point (sensorPoint s) < 1) :
    ∃ s ∈ sensors, gd point (sensorPoint s) ≤ ep.config.searchRadius ∧
      gd point (sensorPoint s) < 1 ∧
      ∃ gp, interpolatePoint ep gd now point sensors = some gp ∧
        gp.moistureSurface = s.moistureSurface ∧
        gp.moistureRoot = s.moistureRoot ∧
        gp.temperature = s.tempSurface ∧
        gp.confidence = 1 ∧
        gp.sourceSensors = [s.sensorID] := by
  obtain ⟨s, hmem, hrad, hlt, heq⟩ := scanSensors_coincidence ep gd point sensors h
  refine ⟨s, hmem, hrad, hlt, ?_⟩
  unfold interpolatePoint
  rw [heq]
  dsimp only
  exact ⟨_, rfl, rfl, rfl, rfl, rfl, rfl⟩

/-- C9: with no coincident reading, if fewer readings lie within the search
radius than `min_sensors`, interpolation returns absent. -/
theorem interpolate_absent_below_min (ep : EdgeProcessor) (gd : Point → Point → ℚ)
    (now : ℕ) (point : Point) (sensors : List SensorReading)
    (hnc : ∀ s ∈ sensors, gd point (sensorPoint s) ≤ ep.config.searchRadius →
      1 ≤ gd point (sensorPoint s))
    (hcount : (sensors.filter
        (fun s => decide (gd point (sensorPoint s) ≤ ep.config.searchRadius))).length <
      ep.config.minSensors) :
    interpolatePoint ep gd now point sensors = none := by
  unfold interpolatePoint
  rw [scanSensors_no_coincidence ep gd point sensors hnc]
  dsimp only
  rw [if_pos hcount]

/-- Absolute value written as a conditional, for concrete evaluation. -/
def ratAbs (x : ℚ) : ℚ := if x < 0 then -x else x

/-- A concrete distance function for witnesses: taxicab distance, standing in
for the abstracted `geo.Distance`. -/
def gd0 (p q : Point) : ℚ := ratAbs (p.lon - q.lon) + ratAbs (p.lat - q.lat)

/-- The grid coordinate used in concrete witnesses. -/
def pt0 : Point := ⟨0, 0⟩

/-- A reading half a distance-unit from `pt0`: coincident. -/
def sensorA : SensorReading :=
  { sensorID := "s_a", timestamp := 0, latitude := 0, longitude := 1/2,
    moistureSurface := 1/10, moistureRoot := 1/10, tempSurface := 40,
    batteryVoltage := 4, qualityFlag := "valid" }

/-- Readings two distance-units from `pt0`, equal surface moisture and
temperature, root moisture `0.3`. -/
def sensorB1 : SensorReading :=
  { sensorID := "s_b1", timestamp := 0, latitude := 0, longitude := 2,
    moistureSurface := 1/10, moistureRoot := 3/10, tempSurface := 40,
    batteryVoltage := 4, qualityFlag := "valid" }

def sensorB2 : SensorReading :=
  { sensorID := "s_b2", timestamp := 0, latitude := 2, longitude := 0,
    moistureSurface := 1/10, moistureRoot := 3/10, tempSurface := 40,
    batteryVoltage := 4, qualityFlag := "valid" }

def sensorB3 : SensorReading :=
  { sensorID := "s_b3", timestamp := 0, latitude := 0, longitude := -2,
    moistureSurface := 1/10, moistureRoot := 3/10, tempSurface := 40,
    batteryVoltage := 4, qualityFlag := "valid" }

/-- Three non-coincident readings within the radius. -/
def setB : List SensorReading := [sensorB1, sensorB2, sensorB3]

/-- Only two non-coincident readings within the radius. -/
def setC : List SensorReading := [sensorB1, sensorB2]

/-- C6 witness: with the coincident reading `sensorA` as the only reading,
the returned GridPoint copies its values with confidence `1` and a singleton
source list. -/
theorem interpolate_coincidence_witness :
    (interpolatePoint ep0 gd0 0 pt0 [sensorA]).map VirtualGridPoint.confidence =
        some 1 ∧
      (interpolatePoint ep0 gd0 0 pt0 [sensorA]).map VirtualGridPoint.moistureSurface =
        some sensorA.moistureSurface := by
  obtain ⟨s, hmem, -, -, gp, hgp, hms, -, -, hconf, -⟩ :=
    interpolate_coincidence ep0 gd0 0 pt0 [sensorA]
      ⟨sensorA, List.mem_singleton_self sensorA,
        by norm_num [gd0, ratAbs, pt0, sensorA, sensorPoint, ep0, defaultConfig]⟩
  obtain rfl := List.mem_singleton.mp hmem
  rw [hgp]
  exact ⟨by rw [Option.map_some', hconf], by rw [Option.map_some', hms]⟩

/-- C9 witness: two readings within the radius against `min_sensors = 3`
yield an absent result. -/
theorem interpolate_absent_below_min_witness :
    interpolatePoint ep0 gd0 0 pt0 setC = none :=
  interpolate_absent_below_min ep0 gd0 0 pt0 setC
    (by norm_num [setC, sensorB1, sensorB2, gd0, ratAbs, sensorPoint, pt0, ep0,
      defaultConfig])
    (by norm_num [setC, sensorB1, sensorB2, gd0, ratAbs, sensorPoint, pt0, ep0,
      defaultConfig, List.filter])

lemma scanSensors_setA : scanSensors ep0 gd0 pt0 [sensorA] = Sum.inl sensorA := by
  norm_num [scanSensors, gd0, ratAbs, pt0, sensorA, sensorPoint, ep0, defaultConfig]

lemma scanSensors_setB : scanSensors ep0 gd0 pt0 setB = Sum.inr setB := by
  norm_num [scanSensors, setB, sensorB1, sensorB2, sensorB3, gd0, ratAbs, pt0,
    sensorPoint, ep0, defaultConfig]

lemma interpolatePoint_setA :
    interpolatePoint ep0 gd0 0 pt0 [sensorA] =
      some { gridID := generateGridID ep0 pt0, fieldID := ep0.config.fieldID,
             timestamp := 0, latitude := pt0.lat, longitude := pt0.lon,
             moistureSurface := sensorA.moistureSurface,
             moistureRoot := sensorA.moistureRoot,
             temperature := sensorA.tempSurface,
             sourceSensors := [sensorA.sensorID], confidence := 1,
             edgeDeviceID := ep0.deviceID } := by
  unfold interpolatePoint
  rw [scanSensors_setA]

lemma interpolatePoint_setB_fields :
    ∃ gp, interpolatePoint ep0 gd0 0 pt0 setB = some gp ∧
      gp.moistureSurface = 1/10 ∧ gp.moistureRoot = 3/10 ∧
      gp.temperature = 40 ∧ gp.stressIndex = 7/12 := by
  unfold interpolatePoint
  rw [scanSensors_setB]
  dsimp only
  rw [if_neg (by norm_num [setB, ep0, defaultConfig])]
  refine ⟨_, rfl, ?_, ?_, ?_, ?_⟩ <;>
    norm_num [setB, sensorB1, sensorB2, sensorB3, idwWeight, gd0, ratAbs, pt0,
      sensorPoint, ep0, defaultConfig, calculateStressIndex, min_def]

/-- C5 (amended): every GridPoint produced by the weighting path of
`interpolatePoint` carries the water deficit, stress index and
irrigation-need class derived from its own interpolated values, and the
edge computation-mode tag `"edge_20m"`; points produced by the coincidence
short-circuit are excluded (they carry Go zero values instead). -/
theorem interpolate_weighted_carries_derived (ep : EdgeProcessor)
    (gd : Point → Point → ℚ) (now : ℕ) (point : Point)
    (sensors kept : List SensorReading) (gp : VirtualGridPoint)
    (hscan : scanSensors ep gd point sensors = Sum.inr kept)
    (hgp : interpolatePoint ep gd now point sensors = some gp) :
    gp.waterDeficit = calculateWaterDeficit ep gp.moistureSurface gp.moistureRoot ∧
    gp.stressIndex = calculateStressIndex ep gp.moistureSurface gp.temperature ∧
    gp.irrigationNeed = classifyIrrigationNeed ep gp.waterDeficit gp.stressIndex ∧
    gp.computationMode = "edge_20m" :=
  interpolatePoint_inr_fields ep gd now point sensors kept gp hscan hgp

/-- C5 witness: the three-sensor weighted input `setB` returns a point whose
derived fields agree with the derived-metric calculators and whose tag is
`"edge_20m"`. -/
theorem interpolate_weighted_carries_derived_witness :
    (interpolatePoint ep0 gd0 0 pt0 setB).map VirtualGridPoint.computationMode =
      some "edge_20m" := by
  obtain ⟨gp, hgp, -, -, -, -⟩ := interpolatePoint_setB_fields
  obtain ⟨-, -, -, hcm⟩ :=
    interpolate_weighted_carries_derived ep0 gd0 0 pt0 setB setB gp
      scanSensors_setB hgp
  rw [hgp, Option.map_some', hcm]

/-- C5 counterexample: the coincidence short-circuit on `sensorA` (surface
and root moisture `0.10`, temperature `40`) returns a GridPoint whose water
deficit, stress index, irrigation class and computation-mode tag are the Go
zero values `0`, `0`, `""`, `""`, although the derived values of its own
moisture and temperature are `150` and `7/12` and the edge tag is
`"edge_20m"`. -/
theorem interpolate_coincidence_missing_derived :
    (interpolatePoint ep0 gd0 0 pt0 [sensorA]).map VirtualGridPoint.moistureSurface =
        some (1/10) ∧
      (interpolatePoint ep0 gd0 0 pt0 [sensorA]).map VirtualGridPoint.moistureRoot =
        some (1/10) ∧
      (interpolatePoint ep0 gd0 0 pt0 [sensorA]).map VirtualGridPoint.temperature =
        some 40 ∧
      (interpolatePoint ep0 gd0 0 pt0 [sensorA]).map VirtualGridPoint.waterDeficit =
        some 0 ∧
      (interpolatePoint ep0 gd0 0 pt0 [sensorA]).map VirtualGridPoint.stressIndex =
        some 0 ∧
      (interpolatePoint ep0 gd0 0 pt0 [sensorA]).map VirtualGridPoint.irrigationNeed =
        some "" ∧
      (interpolatePoint ep0 gd0 0 pt0 [sensorA]).map VirtualGridPoint.computationMode =
        some "" ∧
      calculateWaterDeficit ep0 (1/10) (1/10) = 150 ∧
      calculateStressIndex ep0 (1/10) 40 = 7/12 ∧
      (150:ℚ) ≠ 0 ∧ (7/12:ℚ) ≠ 0 ∧ ("":String) ≠ "edge_20m" := by
  rw [interpolatePoint_setA]
  refine ⟨rfl, rfl, rfl, rfl, rfl, rfl, rfl, ?_, ?_, by norm_num, by norm_num,
    by decide⟩
  · norm_num [calculateWaterDeficit, max_def]
  · norm_num [calculateStressIndex, min_def]

/-- Readings like `setB` but with root moisture `0.5`. -/
def sensorC1 : SensorReading :=
  { sensorID := "s_c1", timestamp := 0, latitude := 0, longitude := 2,
    moistureSurface := 1/10, moistureRoot := 1/2, tempSurface := 40,
    batteryVoltage := 4, qualityFlag := "valid" }

def sensorC2 : SensorReading :=
  { sensorID := "s_c2", timestamp := 0, latitude := 2, longitude := 0,
    moistureSurface := 1/10, moistureRoot := 1/2, tempSurface := 40,
    batteryVoltage := 4, qualityFlag := "valid" }

def sensorC3 : SensorReading :=
  { sensorID := "s_c3", timestamp := 0, latitude := 0, longitude := -2,
    moistureSurface := 1/10, moistureRoot := 1/2, tempSurface := 40,
    batteryVoltage := 4, qualityFlag := "valid" }

/-- A second weighted reading set: same interpolated surface moisture and
temperature as `setB`, different interpolated root moisture. -/
def setD : List SensorReading := [sensorC1, sensorC2, sensorC3]

lemma scanSensors_setD : scanSensors ep0 gd0 pt0 setD = Sum.inr setD := by
  norm_num [scanSensors, setD, sensorC1, sensorC2, sensorC3, gd0, ratAbs, pt0,
    sensorPoint, ep0, defaultConfig]

lemma interpolatePoint_setD_fields :
    ∃ gp, interpolatePoint ep0 gd0 0 pt0 setD = some gp ∧
      gp.moistureSurface = 1/10 ∧ gp.moistureRoot = 1/2 ∧
      gp.temperature = 40 := by
  unfold interpolatePoint
  rw [scanSensors_setD]
  dsimp only
  rw [if_neg (by norm_num [setD, ep0, defaultConfig])]
  refine ⟨_, rfl, ?_, ?_, ?_⟩ <;>
    norm_num [setD, sensorC1, sensorC2, sensorC3, idwWeight, gd0, ratAbs, pt0,
      sensorPoint, ep0, defaultConfig]

/-- C10 (amended): for two runs through the weighting path at a coordinate,
equal interpolated surface moisture and equal interpolated temperature force
equal stress indices, whatever the interpolated root moistures are — the
stress index never reads the root moisture; points from the coincidence
short-circuit are excluded (their stress-index field is the Go zero value). -/
theorem stressIndex_independent_of_root (ep : EdgeProcessor)
    (gd : Point → Point → ℚ) (now now' : ℕ) (point : Point)
    (sensors1 sensors2 kept1 kept2 : List SensorReading)
    (gp1 gp2 : VirtualGridPoint)
    (hscan1 : scanSensors ep gd point sensors1 = Sum.inr kept1)
    (hscan2 : scanSensors ep gd point sensors2 = Sum.inr kept2)
    (h1 : interpolatePoint ep gd now point sensors1 = some gp1)
    (h2 : interpolatePoint ep gd now' point sensors2 = some gp2)
    (hms : gp1.moistureSurface = gp2.moistureSurface)
    (ht : gp1.temperature = gp2.temperature)
    (_hmr : gp1.moistureRoot ≠ gp2.moistureRoot) :
    gp1.stressIndex = gp2.stressIndex := by
  obtain ⟨-, hs1, -, -⟩ :=
    interpolatePoint_inr_fields ep gd now point sensors1 kept1 gp1 hscan1 h1
  obtain ⟨-, hs2, -, -⟩ :=
    interpolatePoint_inr_fields ep gd now' point sensors2 kept2 gp2 hscan2 h2
  rw [hs1, hs2, hms, ht]

/-- C10 witness: `setB` and `setD` agree on interpolated surface moisture
and temperature, differ on root moisture, and get the same stress index. -/
theorem stressIndex_independent_of_root_witness :
    (interpolatePoint ep0 gd0 0 pt0 setB).map VirtualGridPoint.stressIndex =
      (interpolatePoint ep0 gd0 0 pt0 setD).map VirtualGridPoint.stressIndex := by
  obtain ⟨gp1, h1, hms1, hmr1, ht1, -⟩ := interpolatePoint_setB_fields
  obtain ⟨gp2, h2, hms2, hmr2, ht2⟩ := interpolatePoint_setD_fields
  have hsi := stressIndex_independent_of_root ep0 gd0 0 0 pt0 setB setD setB setD
    gp1 gp2 scanSensors_setB scanSensors_setD h1 h2
    (by rw [hms1, hms2]) (by rw [ht1, ht2])
    (by rw [hmr1, hmr2]; norm_num)
  rw [h1, h2, Option.map_some', Option.map_some', hsi]

/-- C10 counterexample: reading set `[sensorA]` (coincidence short-circuit)
and reading set `setB` (weighting path) both yield interpolated surface
moisture `0.10` and temperature `40`, with different root moistures, yet the
stress indices differ (`0` from the short-circuit's zero value, `7/12` from
the weighting path). -/
theorem stressIndex_root_cex :
    (interpolatePoint ep0 gd0 0 pt0 [sensorA]).map VirtualGridPoint.moistureSurface =
        (interpolatePoint ep0 gd0 0 pt0 setB).map VirtualGridPoint.moistureSurface ∧
      (interpolatePoint ep0 gd0 0 pt0 [sensorA]).map VirtualGridPoint.temperature =
        (interpolatePoint ep0 gd0 0 pt0 setB).map VirtualGridPoint.temperature ∧
      (interpolatePoint ep0 gd0 0 pt0 [sensorA]).map VirtualGridPoint.moistureRoot ≠
        (interpolatePoint ep0 gd0 0 pt0 setB).map VirtualGridPoint.moistureRoot ∧
      (interpolatePoint ep0 gd0 0 pt0 [sensorA]).map VirtualGridPoint.stressIndex ≠
        (interpolatePoint ep0 gd0 0 pt0 setB).map VirtualGridPoint.stressIndex := by
  obtain ⟨gp, hgp, hms, hmr, ht, hsi⟩ := interpolatePoint_setB_fields
  rw [interpolatePoint_setA, hgp]
  refine ⟨?_, ?_, ?_, ?_⟩ <;>
    simp only [Option.map_some', Option.some.injEq, ne_eq]
  · rw [hms]; rfl
  · rw [ht]; rfl
  · rw [hmr]; norm_num [sensorA]
  · rw [hsi]; norm_num [sensorA]

/-- A concrete grid point for storage/sync witnesses. -/
def gp0 : VirtualGridPoint :=
  { gridID := "field_001_0_0", fieldID := "field_001", timestamp := 0,
    latitude := 0, longitude := 0, moistureSurface := 1/10,
    moistureRoot := 1/10, temperature := 40, sourceSensors := ["s_a"],
    confidence := 1, edgeDeviceID := "edge_rpi4_001" }

/-- C1 counterexample: starting online with an open cloud handle, a failed
cloud write during `storeVirtualGrid` queues the points but leaves the
device marked online — `isOnline` is not `false` afterwards. -/
theorem storeVirtualGrid_fail_cex :
    (storeVirtualGrid false [gp0] (initState true)).isOnline = true ∧
      (storeVirtualGrid false [gp0] (initState true)).pendingSync = [gp0] ∧
      (initState true).isOnline = true := by
  exact ⟨rfl, rfl, rfl⟩

/-- C1 (corrected): when the device is marked online with an open cloud
handle and the cloud write fails, `storeVirtualGrid` appends the points to
the pending-sync queue (after the unconditional local write), but the
connectivity flag is left unchanged: the device is still marked online. -/
theorem storeVirtualGrid_fail_queues_stays_online (s : SyncState)
    (points : List VirtualGridPoint)
    (hon : s.isOnline = true) (hdb : s.cloudDBOpen = true) :
    (storeVirtualGrid false points s).pendingSync = s.pendingSync ++ points ∧
      (storeVirtualGrid false points s).localStore = s.localStore ++ points ∧
      (storeVirtualGrid false points s).cloudStore = s.cloudStore ∧
      (storeVirtualGrid false points s).isOnline = true := by
  simp [storeVirtualGrid, storeLocal, hon, hdb]

/-- C1 witness: the corrected behaviour at a fresh online processor. -/
theorem storeVirtualGrid_fail_queues_stays_online_witness :
    (storeVirtualGrid false [gp0] (initState true)).pendingSync =
        (initState true).pendingSync ++ [gp0] ∧
      (storeVirtualGrid false [gp0] (initState true)).localStore =
        (initState true).localStore ++ [gp0] ∧
      (storeVirtualGrid false [gp0] (initState true)).cloudStore =
        (initState true).cloudStore ∧
      (storeVirtualGrid false [gp0] (initState true)).isOnline = true :=
  storeVirtualGrid_fail_queues_stays_online (initState true) [gp0] rfl rfl

/-- C2: a sync tick on a processor whose cloud handle was never opened
dereferences the nil handle in `ep.cloudDB.Ping()` — the embedded step has
no successor state (the Go process panics), whatever the environment's probe
and write outcomes would be.  The claim's intended behaviour (return without
action, never crash) is what the code fails to deliver. -/
theorem syncToCloud_nil_handle_crash :
    syncToCloud true true (initState false) = none ∧
      syncToCloud false false (initState false) = none ∧
      syncToCloud true true
        { isOnline := true, cloudDBOpen := false, pendingSync := [gp0],
          localStore := [gp0], cloudStore := [] } = none :=
  ⟨rfl, rfl, rfl⟩

/-- C3: on a sync tick with the device online, an open handle and a
non-empty queue, one bulk write of the entire queue is attempted; on success
the queue becomes empty (and the whole backlog reaches the cloud store in
order), on failure the state — and so the queue, element for element — is
exactly what it was before the attempt. -/
theorem syncToCloud_all_or_nothing (s : SyncState) (pingOk writeOk : Bool)
    (hon : s.isOnline = true) (hdb : s.cloudDBOpen = true)
    (hne : s.pendingSync ≠ []) :
    syncToCloud pingOk writeOk s =
      some (if writeOk
        then { s with
          cloudStore := s.cloudStore ++ s.pendingSync,
          pendingSync := [] }
        else s) := by
  have hguard : ¬(¬s.isOnline = true ∨ ¬s.cloudDBOpen = true) := by
    simp [hon, hdb]
  have hlen : s.pendingSync.length > 0 := List.length_pos.mpr hne
  unfold syncToCloud flushPending storeCloud
  rw [if_neg hguard, if_pos hlen]

/-- A concrete online state with one queued point. -/
def stateQ : SyncState :=
  { isOnline := true, cloudDBOpen := true, pendingSync := [gp0],
    localStore := [gp0], cloudStore := [] }

/-- C3 witness: flushing `stateQ` with a successful bulk write empties the
queue and lands the backlog in the cloud store. -/
theorem syncToCloud_all_or_nothing_witness :
    syncToCloud true true stateQ =
      some { stateQ with
        cloudStore := stateQ.cloudStore ++ stateQ.pendingSync,
        pendingSync := [] } := by
  have h := syncToCloud_all_or_nothing stateQ true true rfl rfl
    (List.cons_ne_nil gp0 [])
  simpa using h

lemma storeVirtualGrid_preserves_inv (cloudOk : Bool)
    (points : List VirtualGridPoint) (s : SyncState)
    (hc : ∀ p ∈ s.cloudStore, p ∈ s.localStore)
    (hq : ∀ p ∈ s.pendingSync, p ∈ s.localStore) :
    (∀ p ∈ (storeVirtualGrid cloudOk points s).cloudStore,
        p ∈ (storeVirtualGrid cloudOk points s).localStore) ∧
      (∀ p ∈ (storeVirtualGrid cloudOk points s).pendingSync,
        p ∈ (storeVirtualGrid cloudOk points s).localStore) := by
  unfold storeVirtualGrid storeLocal storeCloud
  dsimp only
  split_ifs with h1 h2
  · refine ⟨fun p hp => ?_, fun p hp => ?_⟩
    · rcases List.mem_append.mp hp with h | h
      · exact List.mem_append.mpr (Or.inl (hc p h))
      · exact List.mem_append.mpr (Or.inr h)
    · exact List.mem_append.mpr (Or.inl (hq p hp))
  · refine ⟨fun p hp => ?_, fun p hp => ?_⟩
    · exact List.mem_append.mpr (Or.inl (hc p hp))
    · rcases List.mem_append.mp hp with h | h
      · exact List.mem_append.mpr (Or.inl (hq p h))
      · exact List.mem_append.mpr (Or.inr h)
  · refine ⟨fun p hp => ?_, fun p hp => ?_⟩
    · exact List.mem_append.mpr (Or.inl (hc p hp))
    · rcases List.mem_append.mp hp with h | h
      · exact List.mem_append.mpr (Or.inl (hq p h))
      · exact List.mem_append.mpr (Or.inr h)

lemma flushPending_preserves_inv (writeOk : Bool) (s : SyncState)
    (hc : ∀ p ∈ s.cloudStore, p ∈ s.localStore)
    (hq : ∀ p ∈ s.pendingSync, p ∈ s.localStore) :
    (∀ p ∈ (flushPending writeOk s).cloudStore,
        p ∈ (flushPending writeOk s).localStore) ∧
      (∀ p ∈ (flushPending writeOk s).pendingSync,
        p ∈ (flushPending writeOk s).localStore) := by
  unfold flushPending storeCloud
  dsimp only
  split_ifs with h1 h2
  · refine ⟨fun p hp => ?_, fun p hp => ?_⟩
    · rcases List.mem_append.mp hp with h | h
      · exact hc p h
      · exact hq p h
    · exact absurd hp (List.not_mem_nil p)
  · exact ⟨hc, hq⟩
  · exact ⟨hc, hq⟩

lemma syncToCloud_preserves_inv (pingOk writeOk : Bool) (s s' : SyncState)
    (h : syncToCloud pingOk writeOk s = some s')
    (hc : ∀ p ∈ s.cloudStore, p ∈ s.localStore)
    (hq : ∀ p ∈ s.pendingSync, p ∈ s.localStore) :
    (∀ p ∈ s'.cloudStore, p ∈ s'.localStore) ∧
      (∀ p ∈ s'.pendingSync, p ∈ s'.localStore) := by
  unfold syncToCloud at h
  by_cases h1 : ¬s.isOnline = true ∨ ¬s.cloudDBOpen = true
  · rw [if_pos h1] at h
    by_cases h2 : ¬s.cloudDBOpen = true
    · rw [if_pos h2] at h
      exact Option.noConfusion h
    · rw [if_neg h2] at h
      by_cases h3 : pingOk = true
      · rw [if_pos h3] at h
        obtain rfl := Option.some.inj h
        exact flushPending_preserves_inv writeOk _ hc hq
      · rw [if_neg h3] at h
        obtain rfl := Option.some.inj h
        exact ⟨hc, hq⟩
  · rw [if_neg h1] at h
    obtain rfl := Option.some.inj h
    exact flushPending_preserves_inv writeOk s hc hq

lemma syncStep_preserves_inv {u t : SyncState} (hstep : SyncStep u t)
    (hc : ∀ p ∈ u.cloudStore, p ∈ u.localStore)
    (hq : ∀ p ∈ u.pendingSync, p ∈ u.localStore) :
    (∀ p ∈ t.cloudStore, p ∈ t.localStore) ∧
      (∀ p ∈ t.pendingSync, p ∈ t.localStore) := by
  cases hstep with
  | store cloudOk points =>
    exact storeVirtualGrid_preserves_inv cloudOk points u hc hq
  | sync =>
    rename_i pingOk writeOk hs
    exact syncToCloud_preserves_inv pingOk writeOk u t hs hc hq

lemma reachable_inv (s : SyncState) (h : Reachable s) :
    (∀ p ∈ s.cloudStore, p ∈ s.localStore) ∧
      (∀ p ∈ s.pendingSync, p ∈ s.localStore) := by
  induction h with
  | init dbOpen => exact ⟨fun p hp => absurd hp (List.not_mem_nil p),
      fun p hp => absurd hp (List.not_mem_nil p)⟩
  | step _ hstep ih => exact syncStep_preserves_inv hstep ih.1 ih.2

/-- C4: in every reachable state of the store/sync protocol, every grid
point in the cloud store is also in the local store — the unconditional
local-first write in `storeVirtualGrid` and the queue discipline of
`syncToCloud` mean nothing is ever written only remotely. -/
theorem cloud_points_in_local (s : SyncState) (h : Reachable s) :
    ∀ p ∈ s.cloudStore, p ∈ s.localStore :=
  (reachable_inv s h).1

/-- C4 witness: after one online store with a successful cloud write, the
stored point is in the cloud store and — by the invariant — in the local
store. -/
theorem cloud_points_in_local_witness :
    gp0 ∈ (storeVirtualGrid true [gp0] (initState true)).localStore :=
  cloud_points_in_local (storeVirtualGrid true [gp0] (initState true))
    (Reachable.step (Reachable.init true) (SyncStep.store true [gp0] (initState true)))
    gp0 (by simp [storeVirtualGrid, storeLocal, storeCloud, initState])
